import Mathlib

/-!
Shallow embedding of `src/invoice.py` (class `InvoiceGenerator`): a
pandas-based invoice generator that joins a clients table with a works
table, computes tax-inclusive totals, and renders the invoice as text,
a text file and a PDF.

Modelling conventions:
* Cell values (`Value`) model Python/pandas scalars: strings, ints,
  floats (modelled exactly as rationals), parsed dates, and NaN.
* A pandas `DataFrame` is a `Table`: a list of column names plus rows;
  each row is an association list from column name to value (the image
  of `Series.to_dict`).
* `round(x, 2)` is modelled as exact round-half-to-even on rationals
  (Python's `round` is round-half-to-even on the exact value).
* File input is an abstract map from path to raw CSV content; file
  output is an association list from filename to written lines.
* Wall-clock defaults (`datetime.datetime.now()`) are passed in as
  explicit `today` parameters.
-/

/-- A scalar cell value as pandas holds it: string, integer, float
(modelled as an exact rational), a parsed datetime, or NaN. -/
inductive Value where
  | vstr (s : String)
  | vint (n : Int)
  | vrat (q : ℚ)
  | vdate (s : String)
  | vnan
  deriving DecidableEq, Repr

/-- Python pd.notna: false exactly on NaN. -/
def Value.notna : Value → Bool
  | Value.vnan => false
  | _ => true

/-- Python `str()` of a scalar, as used by `.astype(str)` and f-strings.
A float prints with a trailing `.0` when integral; NaN prints as "nan". -/
def Value.pyStr : Value → String
  | Value.vstr s => s
  | Value.vint n => toString n
  | Value.vrat q => if q.den = 1 then toString q.num ++ ".0" else toString q
  | Value.vdate s => s
  | Value.vnan => "nan"

/-- Python `==` between two scalars, as pandas applies it elementwise in
`works_df[col] == client_id`: numbers compare numerically across
int/float, strings compare as strings, numeric never equals string, and
NaN equals nothing. -/
def Value.pyEq : Value → Value → Bool
  | Value.vint m, Value.vint n => m = n
  | Value.vint m, Value.vrat q => (m : ℚ) = q
  | Value.vrat q, Value.vint n => q = (n : ℚ)
  | Value.vrat p, Value.vrat q => p = q
  | Value.vstr s, Value.vstr t => s = t
  | Value.vdate s, Value.vdate t => s = t
  | _, _ => false

/-- Numeric content of a cell for summation (`Series.sum` skips NaN,
i.e. treats it as 0). -/
def Value.toRat : Value → ℚ
  | Value.vint n => (n : ℚ)
  | Value.vrat q => q
  | _ => 0

/-- A row: the association list `Series.to_dict` produces. -/
def Row := List (String × Value)

instance : DecidableEq Row := by unfold Row; infer_instance

/-- Lookup row[col] (and the test col in row): first binding of the
column name in the association list. -/
def Row.find (r : Row) (c : String) : Option Value :=
  (List.find? (fun p => p.1 = c) r).map (fun p => p.2)

/-- A pandas DataFrame: ordered column names and ordered rows. -/
structure Table where
  cols : List String
  rows : List Row
  deriving DecidableEq

/-- The empty frame pd.DataFrame(). -/
def Table.empty : Table := ⟨[], []⟩

/-- Round half to even to the nearest integer (Python's `round`). -/
def roundHalfEven (q : ℚ) : Int :=
  let f : Int := ⌊q⌋
  let r : ℚ := q - f
  if r < 1/2 then f
  else if 1/2 < r then f + 1
  else if f % 2 = 0 then f else f + 1

/-- Python `round(x, 2)`: round half to even at two decimals. -/
def round2 (q : ℚ) : ℚ := (roundHalfEven (q * 100) : ℚ) / 100

/-- First candidate name that is a column of the table — the resolution
loop `for col in candidates: if col in df.columns: ... break`. -/
def resolveCol (cols : List String) (cands : List String) : Option String :=
  cands.find? (fun c => cols.contains c)

/-- The row-level resolution loop shared by the renderers:
`for col in candidates: if col in row and pd.notna(row[col]): take row[col]`. -/
def resolveRow (r : Row) : List String → Option Value
  | [] => Option.none
  | c :: cs =>
    match r.find c with
    | some v => if v.notna then some v else resolveRow r cs
    | Option.none => resolveRow r cs

/-- The totals dictionary returned by `calculate_invoice_totals`. -/
structure Totals where
  subtotal : ℚ
  tax : ℚ
  total : ℚ
  deriving DecidableEq, Repr

/-- The candidate amount column names of `calculate_invoice_totals`. -/
def amountColumns : List String :=
  ["amount", "import", "price", "cost", "value", "total",
   "Amount", "Import", "Price"]

/-- Model of calculate_invoice_totals(works_df): resolve the amount column once
against the table's columns; if none is found return all-zero totals;
otherwise sum the column (NaN summing as 0), apply the flat tax rate,
and round each of subtotal, tax and total to 2 decimals. -/
def calculate_invoice_totals (tax_rate : ℚ) (works_df : Table) : Totals :=
  match resolveCol works_df.cols amountColumns with
  | Option.none => ⟨0, 0, 0⟩
  | some c =>
    let subtotal : ℚ := (works_df.rows.map
      (fun r => ((r.find c).getD Value.vnan).toRat)).sum
    let tax_amount : ℚ := subtotal * tax_rate
    let total : ℚ := subtotal + tax_amount
    ⟨round2 subtotal, round2 tax_amount, round2 total⟩

/-- Raw content of a CSV file before pandas normalisation. -/
structure CSV where
  header : List String
  records : List (List Value)
  deriving DecidableEq

/-- Abstract file input: which paths hold readable CSV content.
A missing path models FileNotFoundError. -/
def FileSystem := String → Option CSV

/-- Surrounding-whitespace strip, the str.strip() applied to column
names. -/
def strTrim (s : String) : String :=
  String.mk
    (((s.toList.dropWhile Char.isWhitespace).reverse.dropWhile
        Char.isWhitespace).reverse)

/-- Lower-casing of a column name, as in col.lower() /
df.columns.str.lower(). -/
def strLower (s : String) : String := String.mk (s.toList.map Char.toLower)

/-- Model of pd.read_csv followed by df.columns.str.strip(): column names
are trimmed of surrounding whitespace, rows pair the trimmed names with
the record values in order. -/
def csvToTable (csv : CSV) : Table :=
  let cols := csv.header.map strTrim
  ⟨cols, csv.records.map (fun vals => List.zip cols vals)⟩

/-- Model of load_clients_data: read the CSV and strip the column names;
on a missing file, report and return the empty frame. -/
def load_clients_data (fs : FileSystem) (clients_csv_path : String) : Table :=
  match fs clients_csv_path with
  | Option.none => Table.empty
  | some csv => csvToTable csv

/-- Case-insensitive test "pat in s" on strings. -/
def strContainsSub (s pat : String) : Bool :=
  (List.range (s.length + 1)).any
    (fun i => List.isPrefixOf pat.toList (s.toList.drop i))

/-- True when the string is a literal of the shape YYYY-MM-DD, the only
strings our model of pd.to_datetime accepts. -/
def isDateLit (s : String) : Bool :=
  match s.toList with
  | [a, b, c, d, '-', e, f, '-', g, h] =>
    List.all [a, b, c, d, e, f, g, h] Char.isDigit
  | _ => false

/-- Model of pd.to_datetime on one scalar: a parseable date string or an
integer becomes a datetime, NaN stays NaT, anything else raises (None). -/
def parseDateVal : Value → Option Value
  | Value.vstr s => if isDateLit s then some (Value.vdate s) else Option.none
  | Value.vint n => some (Value.vdate (toString n))
  | Value.vnan => some Value.vnan
  | Value.vdate s => some (Value.vdate s)
  | Value.vrat _ => Option.none

/-- The date-conversion step of load_works_data. The guard is a pandas
membership test: it fires only when some column name lowercases to
exactly "date"; the column then converted is the first whose name merely
contains "date" case-insensitively. A parse failure raises, which the
caller's except-branch turns into the empty frame (None here). -/
def convertDateCol (t : Table) : Option Table :=
  if (t.cols.map strLower).contains ("date") then
    match t.cols.find? (fun c => strContainsSub (strLower c) ("date")) with
    | some dcol =>
      (t.rows.mapM (fun r =>
        List.mapM (fun (p : String × Value) =>
          if p.1 = dcol then (parseDateVal p.2).map (fun w => (p.1, w))
          else some p) r)).map
        (fun rs => ⟨t.cols, rs⟩)
    | Option.none => some t
  else some t

/-- Model of load_works_data: read the CSV, strip the column names, then
convert the date column when the guard fires; a missing file or a raised
parse error yields the empty frame. -/
def load_works_data (fs : FileSystem) (works_csv_path : String) : Table :=
  match fs works_csv_path with
  | Option.none => Table.empty
  | some csv =>
    match convertDateCol (csvToTable csv) with
    | some t => t
    | Option.none => Table.empty

/-- The candidate identifier column names of get_client_data. -/
def clientIdColumns : List String :=
  ["id", "client_id", "ID", "Client_ID", "id_number", "ID_Number"]

/-- Model of get_client_data: resolve the identifier column, then match
rows by comparing string representations of the stored identifier and
the queried one; the first matching row's dict, or None. -/
def get_client_data (clients_df : Table) (client_id : Value) : Option Row :=
  match resolveCol clients_df.cols clientIdColumns with
  | Option.none => Option.none
  | some c =>
    (clients_df.rows.filter
      (fun r => ((r.find c).getD Value.vnan).pyStr == client_id.pyStr)).head?

/-- The candidate client-reference column names of get_client_works. -/
def worksIdColumns : List String :=
  ["client_id", "Client_ID", "id", "ID", "client", "Client"]

/-- Model of get_client_works: resolve the client-reference column, then
filter rows by strict (non-string-coerced) equality with the queried id;
an unresolvable column yields the empty frame. -/
def get_client_works (works_df : Table) (client_id : Value) : Table :=
  match resolveCol works_df.cols worksIdColumns with
  | Option.none => Table.empty
  | some c =>
    ⟨works_df.cols,
     works_df.rows.filter
       (fun r => Value.pyEq ((r.find c).getD Value.vnan) client_id)⟩

/-- The invoice dictionary assembled by generate_invoice. -/
structure Invoice where
  invoice_number : String
  invoice_date : String
  client_data : Row
  works : List Row
  subtotal : ℚ
  tax_rate : ℚ
  tax_amount : ℚ
  total_amount : ℚ
  deriving DecidableEq

/-- The generator's state after __init__: the two loaded tables and the
flat tax rate. -/
structure InvoiceGenerator where
  clients_df : Table
  works_df : Table
  tax_rate : ℚ

/-- Model of InvoiceGenerator.__init__ over the abstract file input. -/
def InvoiceGenerator.load (fs : FileSystem)
    (clients_csv_path works_csv_path : String)
    (tax_rate : ℚ) : InvoiceGenerator :=
  ⟨load_clients_data fs clients_csv_path,
   load_works_data fs works_csv_path, tax_rate⟩

/-- Model of generate_invoice. The wall-clock defaults for the invoice
number and date are passed in as explicit today parameters (YYYYMMDD and
YYYY-MM-DD renderings of the current date). Returns None exactly when
the client cannot be located. -/
def generate_invoice (g : InvoiceGenerator) (client_id : Value)
    (invoice_number : Option String) (invoice_date : Option String)
    (todayYMD todayISO : String) : Option Invoice :=
  match get_client_data g.clients_df client_id with
  | Option.none => Option.none
  | some client_data =>
    let client_works := get_client_works g.works_df client_id
    let totals := calculate_invoice_totals g.tax_rate client_works
    let number := invoice_number.getD
      ("INV-" ++ todayYMD ++ "-" ++ client_id.pyStr)
    let date := invoice_date.getD todayISO
    some ⟨number, date, client_data, client_works.rows, totals.subtotal,
          g.tax_rate * 100, totals.tax, totals.total⟩

/-- The candidate client display-name column names of the renderers. -/
def nameColumns : List String :=
  ["name", "company_name", "client_name", "Name", "Company_Name",
   "Client_Name"]

/-- The candidate address column names of the renderers. -/
def addressColumns : List String := ["address", "Address", "street", "Street"]

/-- The candidate postal-code column names of the renderers. -/
def zipColumns : List String :=
  ["zip_code", "zip", "postal_code", "Zip_Code", "ZIP", "Postal_Code"]

/-- The candidate description column names of the renderers. -/
def descColumns : List String :=
  ["description", "concept", "service", "Description", "Concept", "Service"]

/-- The candidate work-date column names of the renderers. -/
def dateColumns : List String := ["date", "Date", "work_date", "Work_Date"]

/-- A string of n copies of one character. -/
def repChar (n : Nat) (c : Char) : String := String.mk (List.replicate n c)

/-- Python left-justified padding to a field width (no truncation). -/
def padRight (s : String) (w : Nat) : String := s ++ repChar (w - s.length) ' '

/-- Python right-justified padding to a field width (no truncation). -/
def padLeft (s : String) (w : Nat) : String := repChar (w - s.length) ' ' ++ s

/-- Python fixed-point formatting with two decimal places. -/
def fmt2 (q : ℚ) : String :=
  let c := roundHalfEven (q * 100)
  let a := c.natAbs
  (if c < 0 then "-" else "") ++ toString (a / 100) ++ "." ++
    (if a % 100 < 10 then "0" else "") ++ toString (a % 100)

/-- Python fixed-point formatting with one decimal place. -/
def fmt1 (q : ℚ) : String :=
  let c := roundHalfEven (q * 10)
  let a := c.natAbs
  (if c < 0 then "-" else "") ++ toString (a / 10) ++ "." ++ toString (a % 10)

/-- One body line of the SERVICES block of the text renderer: resolved
description (truncated to 28 characters), date (first 10 characters) and
amount, laid out in fixed-width columns. -/
def renderWorkLine (w : Row) : String :=
  let description := match resolveRow w descColumns with
    | some v => (v.pyStr).take 28
    | Option.none => "Service"
  let work_date := match resolveRow w dateColumns with
    | some v => (v.pyStr).take 10
    | Option.none => "N/A"
  let amount : ℚ := match resolveRow w amountColumns with
    | some v => v.toRat
    | Option.none => 0
  padRight description 30 ++ " " ++ padRight work_date 12 ++ " $" ++
    padRight (fmt2 amount) 9

/-- The exact sequence of lines print_invoice writes for a generated
invoice: header, client block, services table and totals block. -/
def printInvoiceLines (inv : Invoice) : List String :=
  let client := inv.client_data
  let client_name := match resolveRow client nameColumns with
    | some v => v.pyStr
    | Option.none => "Unknown Client"
  let addrLines := match resolveRow client addressColumns with
    | some v => ["  " ++ v.pyStr]
    | Option.none => []
  let zipLines := match resolveRow client zipColumns with
    | some v => ["  " ++ v.pyStr]
    | Option.none => []
  [repChar 60 '=',
   "INVOICE #" ++ inv.invoice_number,
   repChar 60 '=',
   "Date: " ++ inv.invoice_date,
   "",
   "BILL TO:",
   "  " ++ client_name] ++ addrLines ++ zipLines ++
  ["",
   "SERVICES:",
   repChar 60 '-',
   padRight ("Description") 30 ++ " " ++ padRight ("Date") 12 ++ " " ++
     padRight ("Amount") 10,
   repChar 60 '-'] ++
  inv.works.map renderWorkLine ++
  [repChar 60 '-',
   padRight ("Subtotal:") 54 ++ " $" ++ padLeft (fmt2 inv.subtotal) 8,
   padRight ("Tax (" ++ (Value.vrat inv.tax_rate).pyStr ++ "%):") 54 ++
     " $" ++ padLeft (fmt2 inv.tax_amount) 8,
   repChar 60 '=',
   padRight ("TOTAL:") 54 ++ " $" ++ padLeft (fmt2 inv.total_amount) 8,
   repChar 60 '=']

/-- Model of print_invoice including the None guard. -/
def print_invoice : Option Invoice → List String
  | Option.none => ["No invoice to print"]
  | some inv => printInvoiceLines inv

/-- Written output files: an association list from filename to lines,
most recent write first. -/
def OutFS := List (String × List String)

instance : DecidableEq OutFS := by unfold OutFS; infer_instance

/-- Model of save_invoice_to_file: on None, report and touch no file;
otherwise write the print_invoice text under the (possibly defaulted)
filename and report success. -/
def save_invoice_to_file (inv : Option Invoice) (filename : Option String)
    (fs : OutFS) : OutFS × List String :=
  match inv with
  | Option.none => (fs, ["No invoice to save"])
  | some i =>
    let fname := filename.getD ("invoice_" ++ i.invoice_number ++ ".txt")
    ((fname, print_invoice (some i)) :: fs,
     ["Invoice saved to " ++ fname])

/-- One data row of the PDF services table: resolved description (not
truncated here), date (first 10 characters) and formatted amount. -/
def pdfWorkRow (w : Row) : List String :=
  let description := match resolveRow w descColumns with
    | some v => v.pyStr
    | Option.none => "Service"
  let work_date := match resolveRow w dateColumns with
    | some v => (v.pyStr).take 10
    | Option.none => "N/A"
  let amount : ℚ := match resolveRow w amountColumns with
    | some v => v.toRat
    | Option.none => 0
  [description, work_date, "$" ++ fmt2 amount]

/-- The table_data rows of the PDF services table: header, one row per
work item, a blank separator, then subtotal, tax and total rows. -/
def pdfTableData (inv : Invoice) : List (List String) :=
  [["Description", "Date", "Amount"]] ++
  inv.works.map pdfWorkRow ++
  [["", "", ""],
   ["Subtotal:", "", "$" ++ fmt2 inv.subtotal],
   ["Tax (" ++ fmt1 inv.tax_rate ++ "%):", "", "$" ++ fmt2 inv.tax_amount],
   ["TOTAL:", "", "$" ++ fmt2 inv.total_amount]]

/-- The textual content of the PDF story, with cosmetic styling and page
layout abstracted away: title, metadata, client block, services table
and footer. -/
def pdfStoryLines (inv : Invoice) : List String :=
  let client := inv.client_data
  let client_name := match resolveRow client nameColumns with
    | some v => v.pyStr
    | Option.none => "Unknown Client"
  let addrLines := match resolveRow client addressColumns with
    | some v => [v.pyStr]
    | Option.none => []
  let zipLines := match resolveRow client zipColumns with
    | some v => [v.pyStr]
    | Option.none => []
  ["INVOICE",
   "Invoice #: " ++ inv.invoice_number,
   "Date: " ++ inv.invoice_date,
   "BILL TO:",
   client_name] ++ addrLines ++ zipLines ++
  ["SERVICES:"] ++
  (pdfTableData inv).map (fun row => String.intercalate (" | ") row) ++
  ["Thank you for your business!",
   "For questions about this invoice, please contact us."]

/-- Model of save_invoice_to_pdf: on None, report and touch no file;
otherwise write the story under the (possibly defaulted) filename and
report success. -/
def save_invoice_to_pdf (inv : Option Invoice) (filename : Option String)
    (fs : OutFS) : OutFS × List String :=
  match inv with
  | Option.none => (fs, ["No invoice to save"])
  | some i =>
    let fname := filename.getD ("invoice_" ++ i.invoice_number ++ ".pdf")
    ((fname, pdfStoryLines i) :: fs,
     ["Invoice PDF saved to " ++ fname])

/-- The raw (pre-rounding) sum works_df[amount_col].sum() over a column. -/
def colSum (w : Table) (c : String) : ℚ :=
  (w.rows.map (fun r => ((Row.find r c).getD Value.vnan).toRat)).sum

/-- Modelled from the spec, section 4.3: the string-coerced variant of
the work-item lookup — what findWorkItemsForClient would return if it
matched the way findClient does, by comparing string representations.
Defined for comparison against the strict-equality get_client_works. -/
def get_client_works_coerced (works_df : Table) (client_id : Value) : Table :=
  match resolveCol works_df.cols worksIdColumns with
  | Option.none => Table.empty
  | some c =>
    ⟨works_df.cols,
     works_df.rows.filter
       (fun r => ((Row.find r c).getD Value.vnan).pyStr == client_id.pyStr)⟩

/-- A one-item works table whose amount, 0.09, makes the tax a half-cent
tie. -/
def tieWorks : Table := ⟨["amount"], [[("amount", Value.vrat (9/100))]]⟩

/-- A one-item works table with an integral amount, 10. -/
def intWorks : Table := ⟨["amount"], [[("amount", Value.vint 10)]]⟩

/-- A clients table storing its identifier as the string "1". -/
def strIdClients : Table :=
  ⟨["id", "name"], [[("id", Value.vstr "1"), ("name", Value.vstr "Acme")]]⟩

/-- A works table referencing its client as the string "1". -/
def strIdWorks : Table :=
  ⟨["client_id", "amount"],
   [[("client_id", Value.vstr "1"), ("amount", Value.vrat 100)]]⟩

/-- A raw works CSV whose only date-like column is named work_date. -/
def workDateCSV : CSV :=
  ⟨["work_date", "client_id", "amount"],
   [[Value.vstr "2024-01-15", Value.vint 1, Value.vrat 100]]⟩

/-- A file input holding only workDateCSV under the path works.csv. -/
def workDateFS : FileSystem :=
  fun p => if p = "works.csv" then some workDateCSV else Option.none

/-- A clients table with integer identifiers, for witnesses. -/
def intIdClients : Table :=
  ⟨["id", "name"], [[("id", Value.vint 1), ("name", Value.vstr "Acme")]]⟩

/-- A works table with integer client references, for witnesses. -/
def intIdWorks : Table :=
  ⟨["client_id", "amount"],
   [[("client_id", Value.vint 1), ("amount", Value.vrat 100)],
    [("client_id", Value.vint 2), ("amount", Value.vrat 50)]]⟩

/-! ## Verified properties -/

/-- Rounding lands on the floor when the fractional part is below one
half. -/
theorem roundHalfEven_of_lt (q : ℚ) (f : ℤ) (h1 : ⌊q⌋ = f)
    (h2 : q - f < 1/2) : roundHalfEven q = f := by
  simp only [roundHalfEven, h1]
  rw [if_pos h2]

/-- Rounding lands on the floor at an exact tie when the floor is even. -/
theorem roundHalfEven_tie_even (q : ℚ) (f : ℤ) (h1 : ⌊q⌋ = f)
    (h2 : q - f = 1/2) (h3 : f % 2 = 0) : roundHalfEven q = f := by
  simp only [roundHalfEven, h1, h2]
  norm_num [h3]

/-- Rounding lands above the floor at an exact tie when the floor is
odd. -/
theorem roundHalfEven_tie_odd (q : ℚ) (f : ℤ) (h1 : ⌊q⌋ = f)
    (h2 : q - f = 1/2) (h3 : f % 2 ≠ 0) : roundHalfEven q = f + 1 := by
  simp only [roundHalfEven, h1, h2]
  norm_num [h3]

/-- Rounding zero to two decimals gives zero. -/
theorem round2_zero : round2 0 = 0 := by
  unfold round2
  rw [show ((0:ℚ) * 100) = (0:ℚ) by norm_num]
  rw [roundHalfEven_of_lt 0 0 (by rw [Rat.floor_def]; norm_num) (by norm_num)]
  norm_num

/-- C5: if none of the amount-candidate names is a column of the works
table, calculate_invoice_totals returns all-zero totals without raising;
resolution looks only at the table's columns, never at individual rows. -/
theorem calculate_totals_no_amount_col (rate : ℚ) (w : Table)
    (h : ∀ c ∈ amountColumns, w.cols.contains c = false) :
    calculate_invoice_totals rate w = ⟨0, 0, 0⟩ := by
  have hres : resolveCol w.cols amountColumns = Option.none := by
    apply List.find?_eq_none.mpr
    intro c hc
    simpa using h c hc
  simp [calculate_invoice_totals, hres]

/-- Witness for C5: a works table whose columns carry none of the amount
candidates, even though a row does hold an "amount" key, still yields
all-zero totals. -/
theorem calculate_totals_no_amount_col_witness :
    calculate_invoice_totals (21/100)
      ⟨["foo"], [[("amount", Value.vrat 100)]]⟩ = ⟨0, 0, 0⟩ :=
  calculate_totals_no_amount_col (21/100)
    ⟨["foo"], [[("amount", Value.vrat 100)]]⟩ (by decide)

/-- C8: column resolution over a row is order-respecting — the resolved
value is the value of the first candidate name, in list order, that is
present in the row with a non-null value, and absent when no candidate
qualifies. In particular, for a row holding both "Amount" and "amount",
the one earlier in the candidate list wins, deterministically. -/
theorem resolveRow_first_match (r : Row) (cands : List String) :
    resolveRow r cands =
      match cands.find?
          (fun c => ((Row.find r c).map Value.notna).getD false) with
      | some c => Row.find r c
      | Option.none => Option.none := by
  induction cands with
  | nil => rfl
  | cons c cs ih =>
    rw [resolveRow, List.find?]
    cases hf : Row.find r c with
    | none => simpa [hf] using ih
    | some v =>
      cases hn : v.notna with
      | true => simp [hf, hn]
      | false => simpa [hf, hn] using ih

/-- C9: the text renderer is deterministic — its output is a pure
function of the invoice value, so equal invoices render to identical
line sequences. -/
theorem print_invoice_deterministic (i j : Option Invoice) (h : i = j) :
    print_invoice i = print_invoice j := by
  rw [h]

/-- Witness for C9: rendering one concrete invoice twice gives the same
lines. -/
theorem print_invoice_deterministic_witness :
    print_invoice (some ⟨"INV-1", "2024-01-01", [("name", Value.vstr "Acme")],
        [], 0, 21, 0, 0⟩) =
      print_invoice (some ⟨"INV-1", "2024-01-01", [("name", Value.vstr "Acme")],
        [], 0, 21, 0, 0⟩) :=
  print_invoice_deterministic _ _ rfl

/-- C10: each renderer accepts the absent result of a failed generation:
on a None invoice, print_invoice only reports, and the two savers return
the output file system unchanged — no file is created or written. -/
theorem renderers_accept_none (f₁ f₂ : Option String) (fs₁ fs₂ : OutFS) :
    print_invoice Option.none = ["No invoice to print"] ∧
    save_invoice_to_file Option.none f₁ fs₁ = (fs₁, ["No invoice to save"]) ∧
    save_invoice_to_pdf Option.none f₂ fs₂ = (fs₂, ["No invoice to save"]) :=
  ⟨rfl, rfl, rfl⟩

/-- Totals over a table with no rows are all zero, whether or not an
amount column resolves. -/
theorem calculate_invoice_totals_nil (rate : ℚ) (cols : List String) :
    calculate_invoice_totals rate ⟨cols, []⟩ = ⟨0, 0, 0⟩ := by
  unfold calculate_invoice_totals
  cases h : resolveCol cols amountColumns with
  | none => rfl
  | some c =>
    simp [round2_zero]

/-- A failed client lookup aborts generation with None. -/
theorem generate_invoice_none_of (g : InvoiceGenerator) (cid : Value)
    (n d : Option String) (t1 t2 : String)
    (h : get_client_data g.clients_df cid = Option.none) :
    generate_invoice g cid n d t1 t2 = Option.none := by
  unfold generate_invoice
  rw [h]

/-- A successful client lookup yields an invoice carrying that record
and the totals of the matching works. -/
theorem generate_invoice_some_of (g : InvoiceGenerator) (cid : Value)
    (n d : Option String) (t1 t2 : String) (row : Row)
    (h : get_client_data g.clients_df cid = some row) :
    generate_invoice g cid n d t1 t2 = some
      ⟨(n.getD ("INV-" ++ t1 ++ "-" ++ cid.pyStr)), d.getD t2, row,
       (get_client_works g.works_df cid).rows,
       (calculate_invoice_totals g.tax_rate
         (get_client_works g.works_df cid)).subtotal,
       g.tax_rate * 100,
       (calculate_invoice_totals g.tax_rate
         (get_client_works g.works_df cid)).tax,
       (calculate_invoice_totals g.tax_rate
         (get_client_works g.works_df cid)).total⟩ := by
  unfold generate_invoice
  rw [h]

/-- Client lookup with a resolved identifier column is a string-coerced
filter over the rows, taking the first match. -/
theorem get_client_data_eq (clients : Table) (cid : Value) (c : String)
    (hc : resolveCol clients.cols clientIdColumns = some c) :
    get_client_data clients cid =
      (clients.rows.filter
        (fun r => ((Row.find r c).getD Value.vnan).pyStr == cid.pyStr)).head? := by
  unfold get_client_data
  rw [hc]

/-- C4: a client that exists but has zero matching work items still gets
an invoice — line items empty, subtotal, tax and total all zero. -/
theorem generate_invoice_no_works (g : InvoiceGenerator) (cid : Value)
    (n d : Option String) (t1 t2 : String) (row : Row)
    (h1 : get_client_data g.clients_df cid = some row)
    (h2 : (get_client_works g.works_df cid).rows = []) :
    ∃ inv, generate_invoice g cid n d t1 t2 = some inv ∧
      inv.client_data = row ∧ inv.works = [] ∧ inv.subtotal = 0 ∧
      inv.tax_amount = 0 ∧ inv.total_amount = 0 := by
  have hW : get_client_works g.works_df cid =
      ⟨(get_client_works g.works_df cid).cols, []⟩ := by
    rw [← h2]
  have hz : calculate_invoice_totals g.tax_rate
      (get_client_works g.works_df cid) = ⟨0, 0, 0⟩ := by
    rw [hW]
    exact calculate_invoice_totals_nil g.tax_rate _
  refine ⟨_, generate_invoice_some_of g cid n d t1 t2 row h1, rfl, h2, ?_, ?_, ?_⟩ <;>
    rw [hz]

/-- Witness for C4: a client that exists in a concrete clients table,
with a works table referencing only other clients, still yields a full
invoice with empty line items and zero totals. -/
theorem generate_invoice_no_works_witness :
    ∃ inv, generate_invoice
        ⟨intIdClients, ⟨["client_id", "amount"],
          [[("client_id", Value.vint 7), ("amount", Value.vrat 50)]]⟩, 21/100⟩
        (Value.vint 1) Option.none Option.none ("20240101") ("2024-01-01")
      = some inv ∧
      inv.client_data = [("id", Value.vint 1), ("name", Value.vstr "Acme")] ∧
      inv.works = [] ∧ inv.subtotal = 0 ∧ inv.tax_amount = 0 ∧
      inv.total_amount = 0 :=
  generate_invoice_no_works _ _ _ _ _ _ _ (by decide) (by decide)

/-- C6: a missing source file makes each loader return the empty table
instead of raising, and generation against the empty tables degrades —
client lookup returns None, work lookup returns the empty table, and
generate_invoice returns None rather than crashing. -/
theorem loaders_missing_file_degrade (fs : FileSystem) (p₁ p₂ : String)
    (cid : Value) (rate : ℚ)
    (h1 : fs p₁ = Option.none) (h2 : fs p₂ = Option.none) :
    load_clients_data fs p₁ = Table.empty ∧
    load_works_data fs p₂ = Table.empty ∧
    get_client_data Table.empty cid = Option.none ∧
    get_client_works Table.empty cid = Table.empty ∧
    (∀ n d t1 t2, generate_invoice
        (InvoiceGenerator.load fs p₁ p₂ rate) cid n d t1 t2 = Option.none) := by
  have hc : load_clients_data fs p₁ = Table.empty := by
    unfold load_clients_data
    rw [h1]
  have hw : load_works_data fs p₂ = Table.empty := by
    unfold load_works_data
    rw [h2]
  have hres : resolveCol Table.empty.cols clientIdColumns = Option.none := rfl
  have hg : get_client_data Table.empty cid = Option.none := by
    unfold get_client_data
    rw [hres]
  refine ⟨hc, hw, hg, rfl, fun n d t1 t2 => ?_⟩
  apply generate_invoice_none_of
  show get_client_data (InvoiceGenerator.load fs p₁ p₂ rate).clients_df cid
      = Option.none
  unfold InvoiceGenerator.load
  rw [show (InvoiceGenerator.mk (load_clients_data fs p₁)
      (load_works_data fs p₂) rate).clients_df = load_clients_data fs p₁
    from rfl, hc, hg]

/-- Witness for C6: an empty file input at concrete paths. -/
theorem loaders_missing_file_degrade_witness :
    load_clients_data (fun _ => Option.none) ("clients.csv") = Table.empty ∧
    generate_invoice
        (InvoiceGenerator.load (fun _ => Option.none) ("clients.csv")
          ("works.csv") (21/100))
        (Value.vint 1) Option.none Option.none ("20240101") ("2024-01-01")
      = Option.none :=
  ⟨(loaders_missing_file_degrade (fun _ => Option.none) ("clients.csv")
      ("works.csv") (Value.vint 1) (21/100) rfl rfl).1,
   (loaders_missing_file_degrade (fun _ => Option.none) ("clients.csv")
      ("works.csv") (Value.vint 1) (21/100) rfl rfl).2.2.2.2 _ _ _ _⟩

/-- C2: generation is governed by the string-coerced client lookup — if
no identifier column resolves, or no row's identifier has the query's
string representation, generate_invoice returns None and produces no
invoice; if a row matches, it returns an invoice whose client field is
exactly the first matching record. -/
theorem generate_invoice_client_lookup (g : InvoiceGenerator) (cid : Value)
    (n d : Option String) (t1 t2 : String) :
    (resolveCol g.clients_df.cols clientIdColumns = Option.none →
      generate_invoice g cid n d t1 t2 = Option.none) ∧
    (∀ c, resolveCol g.clients_df.cols clientIdColumns = some c →
      (∀ r ∈ g.clients_df.rows,
        ((Row.find r c).getD Value.vnan).pyStr ≠ cid.pyStr) →
      generate_invoice g cid n d t1 t2 = Option.none) ∧
    (∀ c r₀, resolveCol g.clients_df.cols clientIdColumns = some c →
      (g.clients_df.rows.filter
          (fun r => ((Row.find r c).getD Value.vnan).pyStr == cid.pyStr)).head?
        = some r₀ →
      ∃ inv, generate_invoice g cid n d t1 t2 = some inv ∧
        inv.client_data = r₀) := by
  refine ⟨?_, ?_, ?_⟩
  · intro h
    apply generate_invoice_none_of
    unfold get_client_data
    rw [h]
  · intro c hc hno
    apply generate_invoice_none_of
    rw [get_client_data_eq g.clients_df cid c hc]
    have hfil : g.clients_df.rows.filter
        (fun r => ((Row.find r c).getD Value.vnan).pyStr == cid.pyStr) = [] := by
      apply List.filter_eq_nil_iff.mpr
      intro r hr
      simpa using hno r hr
    rw [hfil]
    rfl
  · intro c r₀ hc hr
    have hsome : get_client_data g.clients_df cid = some r₀ := by
      rw [get_client_data_eq g.clients_df cid c hc, hr]
    exact ⟨_, generate_invoice_some_of g cid n d t1 t2 r₀ hsome, rfl⟩

/-- Witness for C2: in a concrete table, id 999 generates nothing and
id 1 generates an invoice carrying exactly the stored client record. -/
theorem generate_invoice_client_lookup_witness :
    generate_invoice ⟨intIdClients, intIdWorks, 21/100⟩ (Value.vint 999)
      Option.none Option.none ("20240101") ("2024-01-01") = Option.none ∧
    ∃ inv, generate_invoice ⟨intIdClients, intIdWorks, 21/100⟩ (Value.vint 1)
        Option.none Option.none ("20240101") ("2024-01-01") = some inv ∧
      inv.client_data = [("id", Value.vint 1), ("name", Value.vstr "Acme")] :=
  ⟨(generate_invoice_client_lookup ⟨intIdClients, intIdWorks, 21/100⟩
      (Value.vint 999) Option.none Option.none ("20240101")
      ("2024-01-01")).2.1 ("id") (by decide) (by decide),
   (generate_invoice_client_lookup ⟨intIdClients, intIdWorks, 21/100⟩
      (Value.vint 1) Option.none Option.none ("20240101")
      ("2024-01-01")).2.2 ("id") _ (by decide) (by decide)⟩

/-- With a resolved amount column, the totals are the rounded raw sum,
rounded raw tax, and rounded raw sum-plus-tax. -/
theorem calculate_invoice_totals_eq (rate : ℚ) (w : Table) (c : String)
    (hc : resolveCol w.cols amountColumns = some c) :
    calculate_invoice_totals rate w =
      ⟨round2 (colSum w c), round2 (colSum w c * rate),
       round2 (colSum w c + colSum w c * rate)⟩ := by
  unfold calculate_invoice_totals colSum
  rw [hc]

/-- C1 (amended): with a resolved amount column, subtotal, tax and total
are each rounded from the raw (pre-rounding) values — the total is
round(raw_subtotal + raw_tax, 2), not round(subtotal + tax_amount, 2)
computed from the already-rounded fields; the claimed identity does hold
whenever rounding the subtotal and the tax is exact. -/
theorem calculate_totals_rounding (rate : ℚ) (w : Table) (c : String)
    (hc : resolveCol w.cols amountColumns = some c) :
    calculate_invoice_totals rate w =
      ⟨round2 (colSum w c), round2 (colSum w c * rate),
       round2 (colSum w c + colSum w c * rate)⟩ ∧
    (round2 (colSum w c) = colSum w c →
     round2 (colSum w c * rate) = colSum w c * rate →
      (calculate_invoice_totals rate w).total =
        round2 ((calculate_invoice_totals rate w).subtotal +
                (calculate_invoice_totals rate w).tax)) := by
  refine ⟨calculate_invoice_totals_eq rate w c hc, ?_⟩
  intro e1 e2
  rw [calculate_invoice_totals_eq rate w c hc]
  show round2 (colSum w c + colSum w c * rate) =
    round2 (round2 (colSum w c) + round2 (colSum w c * rate))
  rw [e1, e2]

/-- Witness for C1: on a one-row works table with amount 10 and rate
0.21 the equations hold and the rounding side condition is vacuous. -/
theorem calculate_totals_rounding_witness :
    calculate_invoice_totals (21/100) intWorks =
      ⟨round2 (colSum intWorks ("amount")),
       round2 (colSum intWorks ("amount") * (21/100)),
       round2 (colSum intWorks ("amount") +
               colSum intWorks ("amount") * (21/100))⟩ :=
  (calculate_totals_rounding (21/100) intWorks ("amount") (by decide)).1

/-- Counterexample for C1 as stated: with the single amount 0.09 and tax
rate 0.5, the code rounds the raw total 0.135 up to 0.14 (the half-cent
tie at 13.5 goes to even 14), while rounding the already-rounded parts
0.09 + 0.04 gives 0.13 — so total_amount differs from
round(subtotal + tax_amount, 2). -/
theorem calculate_totals_claim_false :
    (calculate_invoice_totals (1/2) tieWorks).total ≠
      round2 ((calculate_invoice_totals (1/2) tieWorks).subtotal +
              (calculate_invoice_totals (1/2) tieWorks).tax) := by
  have hS : colSum tieWorks ("amount") = 9/100 := by
    simp [colSum, tieWorks, Row.find, List.find?, Value.toRat]
  have hc : calculate_invoice_totals (1/2) tieWorks =
      ⟨round2 (9/100), round2 (9/200), round2 (27/200)⟩ := by
    rw [calculate_invoice_totals_eq (1/2) tieWorks ("amount") (by decide), hS]
    norm_num
  have h1 : round2 (9/100) = 9/100 := by
    unfold round2
    rw [show ((9:ℚ)/100 * 100) = (9:ℚ) by norm_num]
    rw [roundHalfEven_of_lt 9 9 (by rw [Rat.floor_def]; norm_num) (by norm_num)]
    norm_num
  have h2 : round2 (9/200) = 4/100 := by
    unfold round2
    rw [show ((9:ℚ)/200 * 100) = (9:ℚ)/2 by norm_num]
    rw [roundHalfEven_tie_even (9/2) 4 (by rw [Rat.floor_def]; norm_num)
      (by norm_num) (by decide)]
    norm_num
  have h3 : round2 (27/200) = 14/100 := by
    unfold round2
    rw [show ((27:ℚ)/200 * 100) = (27:ℚ)/2 by norm_num]
    rw [roundHalfEven_tie_odd (27/2) 13 (by rw [Rat.floor_def]; norm_num)
      (by norm_num) (by decide)]
    norm_num
  have h4 : round2 (13/100) = 13/100 := by
    unfold round2
    rw [show ((13:ℚ)/100 * 100) = (13:ℚ) by norm_num]
    rw [roundHalfEven_of_lt 13 13 (by rw [Rat.floor_def]; norm_num)
      (by norm_num)]
    norm_num
  rw [hc]
  show round2 (27/200) ≠ round2 (round2 (9/100) + round2 (9/200))
  rw [h1, h2, h3, show ((9:ℚ)/100 + 4/100) = (13:ℚ)/100 by norm_num, h4]
  norm_num

/-- C3: the intentional asymmetry between the two lookups — with the
client id stored as the string "1" and the integer 1 queried, the
string-coerced client lookup finds the record, while the strict-equality
work-item lookup selects nothing even though its string-coerced variant
would select the matching work row. -/
theorem lookup_asymmetry :
    get_client_data strIdClients (Value.vint 1) =
      some [("id", Value.vstr "1"), ("name", Value.vstr "Acme")] ∧
    (get_client_works strIdWorks (Value.vint 1)).rows = [] ∧
    (get_client_works_coerced strIdWorks (Value.vint 1)).rows =
      [[("client_id", Value.vstr "1"), ("amount", Value.vrat 100)]] := by
  refine ⟨?_, ?_, ?_⟩ <;> decide

/-- Counterexample for C7 as stated: a loadable works table whose only
date-like column is named work_date — a name containing but not equal to
"date" — is returned with that column's values still raw strings, not
parsed into a date type, because the conversion guard demands a column
lowercasing to exactly "date". -/
theorem works_date_col_not_parsed :
    strContainsSub (strLower ("work_date")) ("date") = true ∧
    isDateLit ("2024-01-15") = true ∧
    load_works_data workDateFS ("works.csv") =
      ⟨["work_date", "client_id", "amount"],
       [[("work_date", Value.vstr "2024-01-15"), ("client_id", Value.vint 1),
         ("amount", Value.vrat 100)]]⟩ := by
  refine ⟨?_, ?_, ?_⟩ <;> decide

/-- C7 (amended): load_works_data parses a date column only when some
column name lowercases to exactly "date"; when no column does — even if
a name like work_date contains "date" — the table is returned with its
values unparsed. -/
theorem load_works_no_exact_date_col (fs : FileSystem) (p : String)
    (csv : CSV) (h1 : fs p = some csv)
    (h2 : ((csvToTable csv).cols.map strLower).contains ("date") = false) :
    load_works_data fs p = csvToTable csv := by
  have hcd : convertDateCol (csvToTable csv) = some (csvToTable csv) := by
    unfold convertDateCol
    rw [h2]
    simp
  unfold load_works_data
  rw [h1]
  show (match convertDateCol (csvToTable csv) with
    | some t => t
    | Option.none => Table.empty) = csvToTable csv
  rw [hcd]

/-- Witness for C7: the concrete work_date table loads unchanged. -/
theorem load_works_no_exact_date_col_witness :
    load_works_data workDateFS ("works.csv") = csvToTable workDateCSV :=
  load_works_no_exact_date_col workDateFS ("works.csv") workDateCSV
    (by decide) (by decide)
